import Mathlib

/-!
Verification of the script-runner watch/react core (src/runner.py).

Shallow embedding conventions:
* Python dicts mapping absolute path -> mtime (`last_input_scan`,
  `last_output_scan`, `script_mtimes`) are modelled as association lists
  `List (String × Nat)` with `lookupA` / `setA` mirroring `d[k]` reads and
  `d[k] = v` writes.
* Modification times and wall-clock seconds (`time.time()`) are modelled as
  `Nat`; only ordering and the 2-second debounce difference matter.
* One poll cycle (`_check_for_changes`) observes a frozen directory listing
  `FS`; each regular file is a `(path, mtime)` pair, each script file also
  carries the value `time.time()` would return when it is processed.
* GUI calls (`self.root.after`) only schedule actions; the embedding counts
  or lists the scheduled actions instead of running them.
-/

set_option autoImplicit false

namespace ScriptRunner

/-- Association-list read, mirroring `key in d` / `d[key]` on a Python dict. -/
def lookupA : List (String × Nat) → String → Option Nat
  | [], _ => none
  | p :: rest, k => if p.1 = k then some p.2 else lookupA rest k

/-- Association-list write, mirroring `d[key] = v` on a Python dict. -/
def setA : List (String × Nat) → String → Nat → List (String × Nat)
  | [], k, v => [(k, v)]
  | p :: rest, k, v => if p.1 = k then (p.1, v) :: rest else p :: setA rest k v

@[simp] theorem lookupA_setA_self (m : List (String × Nat)) (k : String) (v : Nat) :
    lookupA (setA m k v) k = some v := by
  induction m with
  | nil => simp [setA, lookupA]
  | cons p rest ih =>
    by_cases h : p.1 = k
    · simp [setA, h, lookupA]
    · simp [setA, h, lookupA, ih]

theorem lookupA_setA_ne (m : List (String × Nat)) {k k' : String} (v : Nat)
    (h : k ≠ k') : lookupA (setA m k v) k' = lookupA m k' := by
  induction m with
  | nil => simp [setA, lookupA, h]
  | cons p rest ih =>
    by_cases hp : p.1 = k
    · simp [setA, hp, lookupA, h]
    · simp only [setA, if_neg hp, lookupA]
      by_cases hk : p.1 = k'
      · simp [hk]
      · simp [hk, ih]

theorem lookupA_isSome_setA (m : List (String × Nat)) (k k' : String) (v : Nat)
    (h : (lookupA m k').isSome) : (lookupA (setA m k v) k').isSome := by
  by_cases hk : k = k'
  · subst hk; simp
  · rwa [lookupA_setA_ne m v hk]

/- === Script Executor: the worker body of `_run_script` (src/runner.py, the
`run()` closure plus the existence pre-check).  The pre-launch banner lines
(`▶ Running: ...`) printed before the worker thread starts are outside the
execution outcome and are not modelled. === -/

/-- Outcome of the `subprocess.run` call inside `_run_script.run`:
either the child exited (any return code, with captured streams), or
`subprocess.TimeoutExpired` was raised, or some other launch-time
exception was raised. -/
inductive ProcOutcome where
  | completed (returncode : Int) (stdout stderr : String)
  | timedOut
  | launchError (msg : String)

/-- What `_run_script` reports back to the observer (log lines appended to
the output pane, status-bar update) and whether it scheduled a metadata
regeneration (`self.root.after(100, self._generate_metadata)`). -/
structure RunReport where
  launched : Bool
  logLines : List String
  status : Option String
  metadataScheduled : Bool

/-- `_run_script(script_path)`: the existence pre-check, then the worker
body mapping the subprocess outcome to observer messages.  Mirrors
src/runner.py lines 344-387. -/
def run_script (script : String) (scriptExists : Bool) (o : ProcOutcome) : RunReport :=
  if scriptExists = false then
    { launched := false
      logLines := ["❌ Script not found: " ++ script]
      status := none
      metadataScheduled := false }
  else
    match o with
    | .completed rc out err =>
      let status := if rc = 0 then "✓ Completed" else "✗ Failed (code " ++ toString rc ++ ")"
      { launched := true
        logLines :=
          (if out = "" then [] else [out.trim]) ++
          (if err = "" then [] else ["⚠️ " ++ err.trim]) ++
          ["\n" ++ status]
        status := some status
        metadataScheduled := true }
    | .timedOut =>
      { launched := true
        logLines := ["⏱ Script timed out (5 min limit)"]
        status := some "Timed out"
        metadataScheduled := false }
    | .launchError e =>
      { launched := true
        logLines := ["❌ Error: " ++ e]
        status := some "Error"
        metadataScheduled := false }

/- === Metadata Generator: `_scan_folder_metadata` and `_generate_metadata`
(src/runner.py lines 389-473).  Reading a data file through pandas is the
pluggable extractor capability; its result for each file is modelled as
data (`ExtractResult`): `ok` carries the row count and the ordered column
schema shared by the `.csv` / `.xlsx` / `.xls` / `.parquet` branches, `err`
carries the exception message of the per-file `except` handler (which also
covers the `stat()` call). === -/

/-- Result of extracting one data file (the pandas read + len + dtypes). -/
inductive ExtractResult where
  | ok (rowCount : Nat) (columns : List (String × String))
  | err (msg : String)

/-- One regular file of a watched folder as the generator sees it:
absolute path (the sort key of `sorted(data_files)`), path relative to the
folder, base name, extension (`Path.suffix`), byte size, and the outcome of
the extractor capability on it. -/
structure DataFile where
  path : String
  relPath : String
  name : String
  suffix : String
  sizeBytes : Nat
  extract : ExtractResult

/-- `data_extensions` from `_scan_folder_metadata`. -/
def data_extensions : List String := [".csv", ".xlsx", ".xls", ".parquet"]

/-- Insertion step for sorting data files by absolute path. -/
def insertByPath (f : DataFile) : List DataFile → List DataFile
  | [] => [f]
  | g :: rest => if f.path ≤ g.path then f :: g :: rest else g :: insertByPath f rest

/-- `sorted(data_files)`: Python sorts the collected paths; modelled as an
insertion sort on the absolute path string. -/
def sortByPath : List DataFile → List DataFile
  | [] => []
  | f :: rest => insertByPath f (sortByPath rest)

/-- The `data_files` list of `_scan_folder_metadata` after sorting: the
per-extension `glob(f"**/*.ext")` collection is modelled as filtering the
folder listing by the recognized suffixes (each file matches at most one
pattern, so collecting per extension and filtering give the same files). -/
def dataFiles (files : List DataFile) : List DataFile :=
  sortByPath (files.filter (fun f => data_extensions.contains f.suffix))

/-- Python's `f"{size_mb:.2f}"` where `size_mb = size_bytes / (1024*1024)`:
two-decimal fixed-point rendering, with round-half-up standing in for the
float formatting (no claim depends on the exact rounding direction). -/
def fmtMB (bytes : Nat) : String :=
  let centi := (bytes * 100 + 524288) / 1048576
  toString (centi / 100) ++ "." ++ (if centi % 100 < 10 then "0" else "") ++ toString (centi % 100)

/-- Python expression `"=" * 50`, the separator line of the report header. -/
def sepLine : String := String.mk (List.replicate 50 (Char.ofNat 61))

/-- The lines appended for one data file by the loop body of
`_scan_folder_metadata` (the `try` block on success, the `except` block on
extraction failure).  The `else: continue` branch of the suffix dispatch is
unreachable for files drawn from `dataFiles` and is not modelled. -/
def fileBlock (f : DataFile) : List String :=
  match f.extract with
  | .ok rows cols =>
    ["File: " ++ f.relPath,
     "  Absolute Path: " ++ f.path,
     "  Size: " ++ fmtMB f.sizeBytes ++ " MB",
     "  Rows: " ++ toString rows,
     "  Columns (" ++ toString cols.length ++ "):"]
    ++ cols.map (fun c => "    - " ++ c.1 ++ " (" ++ c.2 ++ ")")
    ++ [""]
  | .err msg =>
    ["File: " ++ f.name, "  Error reading: " ++ msg, ""]

/-- The `lines` list built by `_scan_folder_metadata folder title`, with the
formatted `datetime.now()` string passed in as `now`. -/
def scan_folder_metadata_lines (files : List DataFile) (folderPath title now : String) :
    List String :=
  [title ++ " Metadata",
   "Folder: " ++ folderPath,
   "Generated: " ++ now,
   sepLine,
   ""]
  ++ (if (dataFiles files).isEmpty then ["No data files found."]
      else ((dataFiles files).map fileBlock).flatten)

/-- `"\n".join(lines)`. -/
def joinLines : List String → String
  | [] => ""
  | [l] => l
  | l :: l' :: rest => l ++ "\n" ++ joinLines (l' :: rest)

/-- `_scan_folder_metadata(folder, title)`: the report text. -/
def scan_folder_metadata (files : List DataFile) (folderPath title now : String) : String :=
  joinLines (scan_folder_metadata_lines files folderPath title now)

/-- `_generate_metadata`: the list of (file name, content) writes performed
by the background `generate()` worker.  Without pandas the action is
skipped wholesale with a warning; otherwise both category reports are
regenerated and written. -/
def generate_metadata (hasPandas : Bool) (inputFiles outputFiles : List DataFile)
    (inputFolderPath outputFolderPath now : String) : List (String × String) :=
  if hasPandas = false then []
  else
    [("input_metadata.txt", scan_folder_metadata inputFiles inputFolderPath "Input Folder" now),
     ("output_metadata.txt", scan_folder_metadata outputFiles outputFolderPath "Output Folder" now)]

/- === Poller / Reaction Dispatcher: `_refresh_scripts`, `_scan_data_folders`,
`_start_watching`, `_check_for_changes` (src/runner.py lines 294-331 and
475-556).  The watched folders are modelled as present (the
`folder.exists()` guards hold); the frozen listing a cycle observes is an
`FS` value. === -/

/-- Watcher state owned by the polling loop: the two snapshot dicts
(`last_input_scan`, `last_output_scan`), the script tracking dict
(`script_mtimes`), the debounce clock (`last_refresh_time`), and the
auto-run checkbox value read by the cycle. -/
structure WatchState where
  lastInputScan : List (String × Nat)
  lastOutputScan : List (String × Nat)
  scriptMtimes : List (String × Nat)
  lastRefreshTime : Nat
  autoRun : Bool

/-- One script file as observed during a cycle: its path, its on-disk
mtime, and the value `time.time()` returns when the loop body reaches it
(used only by the new-script debounce). -/
structure ScriptObs where
  path : String
  mtime : Nat
  now : Nat

/-- The directory contents one poll cycle observes: regular files of the
input and output folders as (path, mtime) pairs, and the `**/*.py` files of
the scripts folder. -/
structure FS where
  inputFiles : List (String × Nat)
  outputFiles : List (String × Nat)
  scriptFiles : List ScriptObs

/-- Accumulator of the two data-folder loops of `_check_for_changes`:
the snapshot dict being updated and the shared `data_changed` flag. -/
structure SnapAcc where
  snap : List (String × Nat)
  changed : Bool

/-- Body of the data-folder loop: `if key not in scan or scan[key] != mtime:
scan[key] = mtime; data_changed = True`. -/
def scanStep (acc : SnapAcc) (f : String × Nat) : SnapAcc :=
  match lookupA acc.snap f.1 with
  | some m => if m = f.2 then acc else { snap := setA acc.snap f.1 f.2, changed := true }
  | none => { snap := setA acc.snap f.1 f.2, changed := true }

/-- One data-folder loop of `_check_for_changes`. -/
def scanFolder (acc : SnapAcc) (files : List (String × Nat)) : SnapAcc :=
  files.foldl scanStep acc

/-- Accumulator of the scripts loop of `_check_for_changes`: the
`script_mtimes` dict, the debounce clock, the number of
`_refresh_scripts` calls scheduled this cycle, and the `scripts_changed`
list. -/
structure ScriptAcc where
  mtimes : List (String × Nat)
  lastRefresh : Nat
  refreshes : Nat
  scriptsChanged : List String

/-- Body of the scripts loop: a tracked script whose mtime changed is
recorded in `scripts_changed`; an untracked (newly found) script is added
to the tracking dict and, only if more than 2 seconds have passed since
`last_refresh_time`, one debounced `_refresh_scripts` is scheduled. -/
def scriptStep (acc : ScriptAcc) (f : ScriptObs) : ScriptAcc :=
  match lookupA acc.mtimes f.path with
  | some m =>
    if m = f.mtime then acc
    else { acc with
            mtimes := setA acc.mtimes f.path f.mtime
            scriptsChanged := acc.scriptsChanged ++ [f.path] }
  | none =>
    let acc1 : ScriptAcc := { acc with mtimes := setA acc.mtimes f.path f.mtime }
    if f.now - acc1.lastRefresh > 2 then
      { acc1 with lastRefresh := f.now, refreshes := acc1.refreshes + 1 }
    else acc1

/-- Everything one `_check_for_changes` cycle produces: the updated
watcher dicts and clock, the `data_changed` flag, the number of
`_generate_metadata` runs scheduled, the number of `_refresh_scripts`
calls scheduled, and the scripts scheduled for execution (in order). -/
structure CheckOutcome where
  lastInputScan : List (String × Nat)
  lastOutputScan : List (String × Nat)
  scriptMtimes : List (String × Nat)
  lastRefreshTime : Nat
  dataChanged : Bool
  metadataRuns : Nat
  refreshes : Nat
  scriptRuns : List String

/-- `_check_for_changes`: scan input then output against the snapshots
threading one `data_changed` flag; scan scripts only when auto-run is
enabled; schedule exactly one `_generate_metadata` if the flag is set; and
schedule one `_run_script` per entry of `scripts_changed`. -/
def check_for_changes (st : WatchState) (fs : FS) : CheckOutcome :=
  let ain := scanFolder ⟨st.lastInputScan, false⟩ fs.inputFiles
  let aout := scanFolder ⟨st.lastOutputScan, ain.changed⟩ fs.outputFiles
  let sc : ScriptAcc :=
    if st.autoRun then
      fs.scriptFiles.foldl scriptStep ⟨st.scriptMtimes, st.lastRefreshTime, 0, []⟩
    else ⟨st.scriptMtimes, st.lastRefreshTime, 0, []⟩
  { lastInputScan := ain.snap
    lastOutputScan := aout.snap
    scriptMtimes := sc.mtimes
    lastRefreshTime := sc.lastRefresh
    dataChanged := aout.changed
    metadataRuns := if aout.changed then 1 else 0
    refreshes := sc.refreshes
    scriptRuns := sc.scriptsChanged }

/-- The watcher state carried into the next cycle. -/
def afterCheck (st : WatchState) (fs : FS) : WatchState :=
  let c := check_for_changes st fs
  { st with
      lastInputScan := c.lastInputScan
      lastOutputScan := c.lastOutputScan
      scriptMtimes := c.scriptMtimes
      lastRefreshTime := c.lastRefreshTime }

/-- `d[str(f)] = f.stat().st_mtime` folded over a folder listing, as done
by `_scan_data_folders` and by the tracking loop of `_refresh_scripts`. -/
def setAll (m : List (String × Nat)) (files : List (String × Nat)) : List (String × Nat) :=
  files.foldl (fun acc f => setA acc f.1 f.2) m

/-- `_scan_data_folders`: record the current mtimes of all input and output
files, called by `_start_watching` before the polling loop starts. -/
def scan_data_folders (st : WatchState) (fs : FS) : WatchState :=
  { st with
      lastInputScan := setAll st.lastInputScan fs.inputFiles
      lastOutputScan := setAll st.lastOutputScan fs.outputFiles }

/-- `_refresh_scripts`: the checkbutton widgets and `script_vars` are
cleared and rebuilt from the sorted on-disk script list (every flag starts
unselected), while `script_mtimes` is only written through (`d[key] = v`)
for the scripts found, never cleared.  Returns (selection flags, updated
`script_mtimes`). -/
def refresh_scripts (mtimes : List (String × Nat)) (onDisk : List (String × Nat)) :
    List (String × Bool) × List (String × Nat) :=
  (onDisk.map (fun s => (s.1, false)), setAll mtimes onDisk)

/- === Lemmas about the poll-cycle folds. === -/

theorem scanStep_snap_self (acc : SnapAcc) (f : String × Nat) :
    lookupA (scanStep acc f).snap f.1 = some f.2 := by
  unfold scanStep
  cases h : lookupA acc.snap f.1 with
  | none => simp
  | some m =>
    by_cases hm : m = f.2
    · simp [hm, h]
    · simp [hm]

theorem scanStep_snap_ne (acc : SnapAcc) (f : String × Nat) {k : String}
    (h : f.1 ≠ k) : lookupA (scanStep acc f).snap k = lookupA acc.snap k := by
  unfold scanStep
  cases hl : lookupA acc.snap f.1 with
  | none => simp [lookupA_setA_ne _ _ h]
  | some m =>
    by_cases hm : m = f.2
    · simp [hm]
    · simp [hm, lookupA_setA_ne _ _ h]

theorem scanStep_changed_mono (acc : SnapAcc) (f : String × Nat)
    (h : acc.changed = true) : (scanStep acc f).changed = true := by
  unfold scanStep
  cases hl : lookupA acc.snap f.1 with
  | none => simp
  | some m =>
    by_cases hm : m = f.2
    · simp [hm, h]
    · simp [hm]

theorem scanStep_changed_of_diff (acc : SnapAcc) (f : String × Nat)
    (h : lookupA acc.snap f.1 ≠ some f.2) : (scanStep acc f).changed = true := by
  unfold scanStep
  cases hl : lookupA acc.snap f.1 with
  | none => simp
  | some m =>
    have hm : m ≠ f.2 := by
      intro he
      exact h (by rw [hl, he])
    simp [hm]

theorem scanStep_eq_of_match (acc : SnapAcc) (f : String × Nat)
    (h : lookupA acc.snap f.1 = some f.2) : scanStep acc f = acc := by
  unfold scanStep
  rw [h]
  simp

theorem scanFolder_snap_notmem (files : List (String × Nat)) (acc : SnapAcc) {k : String}
    (h : k ∉ files.map Prod.fst) :
    lookupA (scanFolder acc files).snap k = lookupA acc.snap k := by
  induction files generalizing acc with
  | nil => rfl
  | cons g rest ih =>
    simp only [List.map_cons, List.mem_cons, not_or] at h
    have : lookupA (scanStep acc g).snap k = lookupA acc.snap k :=
      scanStep_snap_ne acc g (fun he => h.1 he.symm)
    calc lookupA (scanFolder acc (g :: rest)).snap k
        = lookupA (scanFolder (scanStep acc g) rest).snap k := rfl
      _ = lookupA (scanStep acc g).snap k := ih (scanStep acc g) h.2
      _ = lookupA acc.snap k := this

theorem scanFolder_lookup (files : List (String × Nat)) (acc : SnapAcc)
    (hn : (files.map Prod.fst).Nodup) :
    ∀ f ∈ files, lookupA (scanFolder acc files).snap f.1 = some f.2 := by
  induction files generalizing acc with
  | nil => intro f hf; cases hf
  | cons g rest ih =>
    simp only [List.map_cons, List.nodup_cons] at hn
    intro f hf
    rcases List.mem_cons.mp hf with hfg | hfr
    · subst hfg
      have hnot : f.1 ∉ rest.map Prod.fst := hn.1
      calc lookupA (scanFolder acc (f :: rest)).snap f.1
          = lookupA (scanFolder (scanStep acc f) rest).snap f.1 := rfl
        _ = lookupA (scanStep acc f).snap f.1 := scanFolder_snap_notmem rest _ hnot
        _ = some f.2 := scanStep_snap_self acc f
    · exact ih (scanStep acc g) hn.2 f hfr

theorem scanFolder_changed_mono (files : List (String × Nat)) (acc : SnapAcc)
    (h : acc.changed = true) : (scanFolder acc files).changed = true := by
  induction files generalizing acc with
  | nil => exact h
  | cons g rest ih => exact ih (scanStep acc g) (scanStep_changed_mono acc g h)

theorem scanFolder_changed_of_diff (files : List (String × Nat)) (acc : SnapAcc)
    (hn : (files.map Prod.fst).Nodup) (f : String × Nat) (hf : f ∈ files)
    (h : lookupA acc.snap f.1 ≠ some f.2) : (scanFolder acc files).changed = true := by
  induction files generalizing acc with
  | nil => cases hf
  | cons g rest ih =>
    simp only [List.map_cons, List.nodup_cons] at hn
    rcases List.mem_cons.mp hf with hfg | hfr
    · subst hfg
      exact scanFolder_changed_mono rest _ (scanStep_changed_of_diff acc f h)
    · have hne : g.1 ≠ f.1 := by
        intro he
        exact hn.1 (he ▸ List.mem_map_of_mem Prod.fst hfr)
      have hpres : lookupA (scanStep acc g).snap f.1 = lookupA acc.snap f.1 :=
        scanStep_snap_ne acc g hne
      exact ih (scanStep acc g) hn.2 hfr (by rw [hpres]; exact h)

theorem scanFolder_eq_of_match (files : List (String × Nat)) (acc : SnapAcc)
    (h : ∀ f ∈ files, lookupA acc.snap f.1 = some f.2) : scanFolder acc files = acc := by
  induction files with
  | nil => rfl
  | cons g rest ih =>
    have hg : scanStep acc g = acc := scanStep_eq_of_match acc g (h g (List.mem_cons_self g rest))
    calc scanFolder acc (g :: rest)
        = scanFolder (scanStep acc g) rest := rfl
      _ = scanFolder acc rest := by rw [hg]
      _ = acc := ih (fun f hf => h f (List.mem_cons_of_mem g hf))

theorem setAll_lookup_notmem (files : List (String × Nat)) (m : List (String × Nat)) {k : String}
    (h : k ∉ files.map Prod.fst) : lookupA (setAll m files) k = lookupA m k := by
  induction files generalizing m with
  | nil => rfl
  | cons g rest ih =>
    simp only [List.map_cons, List.mem_cons, not_or] at h
    calc lookupA (setAll m (g :: rest)) k
        = lookupA (setAll (setA m g.1 g.2) rest) k := rfl
      _ = lookupA (setA m g.1 g.2) k := ih (setA m g.1 g.2) h.2
      _ = lookupA m k := lookupA_setA_ne m g.2 (fun he => h.1 he.symm)

theorem setAll_lookup_mem (files : List (String × Nat)) (m : List (String × Nat))
    (hn : (files.map Prod.fst).Nodup) :
    ∀ f ∈ files, lookupA (setAll m files) f.1 = some f.2 := by
  induction files generalizing m with
  | nil => intro f hf; cases hf
  | cons g rest ih =>
    simp only [List.map_cons, List.nodup_cons] at hn
    intro f hf
    rcases List.mem_cons.mp hf with hfg | hfr
    · subst hfg
      calc lookupA (setAll m (f :: rest)) f.1
          = lookupA (setAll (setA m f.1 f.2) rest) f.1 := rfl
        _ = lookupA (setA m f.1 f.2) f.1 := setAll_lookup_notmem rest _ hn.1
        _ = some f.2 := lookupA_setA_self m f.1 f.2
    · exact ih (setA m g.1 g.2) hn.2 f hfr

theorem setAll_isSome (files : List (String × Nat)) (m : List (String × Nat)) (k : String)
    (h : (lookupA m k).isSome) : (lookupA (setAll m files) k).isSome := by
  induction files generalizing m with
  | nil => exact h
  | cons g rest ih =>
    exact ih (setA m g.1 g.2) (lookupA_isSome_setA m g.1 k g.2 h)

theorem joinLines_length_ge (a : String) (l : List String) :
    a.length ≤ (joinLines (a :: l)).length := by
  cases l with
  | nil => simp [joinLines]
  | cons b rest =>
    show a.length ≤ (a ++ "\n" ++ joinLines (b :: rest)).length
    rw [String.length_append, String.length_append]
    omega

/- === Claims. === -/

/-- C1, counterexample: it is not the case that every execution outcome
leads to a scheduled metadata regeneration — on a timeout,
`_run_script` schedules none (the `subprocess.TimeoutExpired` handler
only logs and updates the status). -/
theorem C1_counterexample :
    ¬ ∀ (o : ProcOutcome), (run_script "script.py" true o).metadataScheduled = true := by
  intro h
  exact absurd (h ProcOutcome.timedOut) (by decide)

/-- C1, amended: a metadata regeneration is scheduled after a script
execution exactly when the subprocess ran to completion (exit code 0 or
nonzero); on timeout, on a launch-time error, and when the script does not
exist, no regeneration is scheduled. -/
theorem C1_metadata_only_after_completion (p : String) (rc : Int) (out err msg : String) :
    (run_script p true (ProcOutcome.completed rc out err)).metadataScheduled = true ∧
    (run_script p true ProcOutcome.timedOut).metadataScheduled = false ∧
    (run_script p true (ProcOutcome.launchError msg)).metadataScheduled = false ∧
    (run_script p false (ProcOutcome.completed rc out err)).metadataScheduled = false :=
  ⟨rfl, rfl, rfl, rfl⟩

/-- C3: a run that exceeds the wall-clock timeout is reported with the
distinct status "Timed out", which differs from the status reported for
any completed run with a nonzero exit code. -/
theorem C3_timeout_distinct_from_failure (p : String) (rc : Int) (out err : String)
    (hrc : rc ≠ 0) :
    (run_script p true ProcOutcome.timedOut).status = some "Timed out" ∧
    (run_script p true (ProcOutcome.completed rc out err)).status ≠ some "Timed out" := by
  refine ⟨rfl, ?_⟩
  have hs : (run_script p true (ProcOutcome.completed rc out err)).status
      = some ("✗ Failed (code " ++ toString rc ++ ")") := by
    simp [run_script, hrc]
  rw [hs]
  intro h
  have h2 : ("✗ Failed (code " ++ toString rc ++ ")" : String) = "Timed out" :=
    Option.some.inj h
  have hl := congrArg String.length h2
  rw [String.length_append, String.length_append] at hl
  have h1 : ("✗ Failed (code " : String).length = 15 := by decide
  have h3 : (")" : String).length = 1 := by decide
  have h4 : ("Timed out" : String).length = 9 := by decide
  omega

/-- C3, witness: the timeout status versus the status of a run that exited
with code 1. -/
theorem C3_witness :
    (run_script "s.py" true ProcOutcome.timedOut).status = some "Timed out" ∧
    (run_script "s.py" true (ProcOutcome.completed 1 "" "")).status ≠ some "Timed out" :=
  C3_timeout_distinct_from_failure "s.py" 1 "" "" (by decide)

/-- C6, counterexample: refreshing when the scripts folder has become
empty leaves the stale mtime entry for the deleted script in
`script_mtimes` (only `script_vars` is cleared), so after the refresh the
ScriptEntry timestamps are not exactly the script files present on disk. -/
theorem C6_counterexample :
    (refresh_scripts [("a.py", 5)] []).2 ≠ [] ∧
    (refresh_scripts [("a.py", 5)] []).2 = [("a.py", 5)] ∧
    (refresh_scripts [("a.py", 5)] []).1 = [] :=
  ⟨by decide, rfl, rfl⟩

/-- C6, amended: on a rescan the selection flags are destroyed and rebuilt
wholesale (afterwards they cover exactly the script files present on
disk, all unselected), and the modification-timestamp map is updated for
every script present on disk — but entries for scripts no longer on disk
persist rather than being removed. -/
theorem C6_rebuild_vars_update_mtimes (mtimes onDisk : List (String × Nat))
    (hn : (onDisk.map Prod.fst).Nodup) :
    (refresh_scripts mtimes onDisk).1 = onDisk.map (fun s => (s.1, false)) ∧
    (∀ s ∈ onDisk, lookupA (refresh_scripts mtimes onDisk).2 s.1 = some s.2) ∧
    (∀ k, (lookupA mtimes k).isSome → (lookupA (refresh_scripts mtimes onDisk).2 k).isSome) :=
  ⟨rfl,
   fun s hs => setAll_lookup_mem onDisk mtimes hn s hs,
   fun k hk => setAll_isSome onDisk mtimes k hk⟩

/-- C6, witness: a concrete rescan with one pre-tracked and one on-disk
script. -/
theorem C6_witness :
    lookupA (refresh_scripts [("a.py", 5)] [("b.py", 7)]).2 "b.py" = some 7 :=
  (C6_rebuild_vars_update_mtimes [("a.py", 5)] [("b.py", 7)] (by decide)).2.1
    ("b.py", 7) (by decide)

/-- C7: if no file of the folder has a recognized data extension, the
generated report contains the literal line "No data files found." and the
report text is not empty. -/
theorem C7_empty_folder_report (files : List DataFile) (fp title now : String)
    (h : ∀ f ∈ files, f.suffix ∉ data_extensions) :
    "No data files found." ∈ scan_folder_metadata_lines files fp title now ∧
    scan_folder_metadata files fp title now ≠ "" := by
  have hfilter : files.filter (fun f => data_extensions.contains f.suffix) = [] := by
    apply List.filter_eq_nil_iff.mpr
    intro f hf hc
    exact h f hf (List.elem_iff.mp hc)
  have hlines : scan_folder_metadata_lines files fp title now
      = [title ++ " Metadata", "Folder: " ++ fp, "Generated: " ++ now,
         sepLine, "",
         "No data files found."] := by
    unfold scan_folder_metadata_lines dataFiles
    rw [hfilter]
    rfl
  constructor
  · rw [hlines]
    simp
  · rw [scan_folder_metadata, hlines]
    intro hemp
    have hle := joinLines_length_ge (title ++ " Metadata")
      ["Folder: " ++ fp, "Generated: " ++ now,
       sepLine, "",
       "No data files found."]
    rw [hemp] at hle
    rw [String.length_append] at hle
    have h9 : (" Metadata" : String).length = 9 := by decide
    have h0 : ("" : String).length = 0 := by decide
    omega

/-- C7, witness: a folder holding a single file with an unrecognized
extension. -/
theorem C7_witness :
    "No data files found." ∈ scan_folder_metadata_lines
      [⟨"/p/b.txt", "b.txt", "b.txt", ".txt", 4, ExtractResult.ok 0 []⟩]
      "/p" "Input Folder" "2026-10-12 00:00:00" ∧
    scan_folder_metadata
      [⟨"/p/b.txt", "b.txt", "b.txt", ".txt", 4, ExtractResult.ok 0 []⟩]
      "/p" "Input Folder" "2026-10-12 00:00:00" ≠ "" :=
  C7_empty_folder_report _ "/p" "Input Folder" "2026-10-12 00:00:00" (by decide)

/-- C8: with the folder contents fixed, two runs of the report generator
differ only in the generation-timestamp line: line index 2 is
"Generated: " followed by the respective timestamp, and removing that line
from both reports yields identical line lists; the report text is the
newline join of those lines. -/
theorem C8_deterministic_up_to_timestamp (files : List DataFile) (fp title t1 t2 : String) :
    (scan_folder_metadata_lines files fp title t1).eraseIdx 2
      = (scan_folder_metadata_lines files fp title t2).eraseIdx 2 ∧
    (scan_folder_metadata_lines files fp title t1)[2]? = some ("Generated: " ++ t1) ∧
    (scan_folder_metadata_lines files fp title t2)[2]? = some ("Generated: " ++ t2) ∧
    scan_folder_metadata files fp title t1
      = joinLines (scan_folder_metadata_lines files fp title t1) :=
  ⟨rfl, rfl, rfl, rfl⟩

/-- C2: in a poll cycle in which some input or output file is new or
carries a different mtime than the snapshot records, exactly one metadata
generation is scheduled, and that single run regenerates and writes the
reports of both categories (input and output) regardless of which one
changed. -/
theorem C2_one_run_both_categories (st : WatchState) (fs : FS)
    (hIn : (fs.inputFiles.map Prod.fst).Nodup)
    (hOut : (fs.outputFiles.map Prod.fst).Nodup)
    (hchg : (∃ f ∈ fs.inputFiles, lookupA st.lastInputScan f.1 ≠ some f.2) ∨
            (∃ f ∈ fs.outputFiles, lookupA st.lastOutputScan f.1 ≠ some f.2)) :
    (check_for_changes st fs).metadataRuns = 1 ∧
    ∀ (inF outF : List DataFile) (ip op now : String),
      (generate_metadata true inF outF ip op now).map Prod.fst
        = ["input_metadata.txt", "output_metadata.txt"] := by
  have hout : (scanFolder ⟨st.lastOutputScan,
      (scanFolder ⟨st.lastInputScan, false⟩ fs.inputFiles).changed⟩ fs.outputFiles).changed
      = true := by
    rcases hchg with ⟨f, hf, hne⟩ | ⟨f, hf, hne⟩
    · exact scanFolder_changed_mono fs.outputFiles _
        (scanFolder_changed_of_diff fs.inputFiles _ hIn f hf hne)
    · exact scanFolder_changed_of_diff fs.outputFiles _ hOut f hf hne
  constructor
  · simp only [check_for_changes]
    rw [hout]
    rfl
  · intro inF outF ip op now
    rfl

/-- C2, witness: a cycle observing one new input file. -/
theorem C2_witness :
    (check_for_changes ⟨[], [], [], 0, false⟩ ⟨[("in.csv", 1)], [], []⟩).metadataRuns = 1 :=
  (C2_one_run_both_categories ⟨[], [], [], 0, false⟩ ⟨[("in.csv", 1)], [], []⟩
    (by decide) (by decide) (Or.inl ⟨("in.csv", 1), by decide, by decide⟩)).1

/-- C4: after one poll cycle, the snapshot entry of every file the cycle
observed in the input folder, and of every file observed in the output
folder, equals that observed on-disk mtime. -/
theorem C4_snapshot_matches_disk (st : WatchState) (fs : FS)
    (hIn : (fs.inputFiles.map Prod.fst).Nodup)
    (hOut : (fs.outputFiles.map Prod.fst).Nodup) :
    (∀ f ∈ fs.inputFiles,
      lookupA (check_for_changes st fs).lastInputScan f.1 = some f.2) ∧
    (∀ f ∈ fs.outputFiles,
      lookupA (check_for_changes st fs).lastOutputScan f.1 = some f.2) := by
  constructor
  · intro f hf
    simpa [check_for_changes] using
      scanFolder_lookup fs.inputFiles ⟨st.lastInputScan, false⟩ hIn f hf
  · intro f hf
    simpa [check_for_changes] using
      scanFolder_lookup fs.outputFiles
        ⟨st.lastOutputScan, (scanFolder ⟨st.lastInputScan, false⟩ fs.inputFiles).changed⟩
        hOut f hf

/-- C4, witness: one modified input file and one new output file. -/
theorem C4_witness :
    lookupA (check_for_changes ⟨[("in.csv", 1)], [], [], 0, false⟩
      ⟨[("in.csv", 3)], [("out.csv", 4)], []⟩).lastInputScan "in.csv" = some 3 :=
  (C4_snapshot_matches_disk ⟨[("in.csv", 1)], [], [], 0, false⟩
    ⟨[("in.csv", 3)], [("out.csv", 4)], []⟩ (by decide) (by decide)).1
    ("in.csv", 3) (by decide)

/-- C5: in a cycle (with auto-run enabled) that discovers two untracked
scripts, the second within the 2-second window opened by the first, with
the debounce window clear before the first discovery: no script execution
is scheduled for either, and exactly one list-refresh is scheduled. -/
theorem C5_found_scripts_one_refresh (st : WatchState) (fs : FS) (a b : ScriptObs)
    (hauto : st.autoRun = true)
    (hfs : fs.scriptFiles = [a, b])
    (hab : a.path ≠ b.path)
    (ha : lookupA st.scriptMtimes a.path = none)
    (hb : lookupA st.scriptMtimes b.path = none)
    (hta : a.now - st.lastRefreshTime > 2)
    (htb : b.now - a.now ≤ 2) :
    (check_for_changes st fs).refreshes = 1 ∧
    (check_for_changes st fs).scriptRuns = [] := by
  have h1 : scriptStep ⟨st.scriptMtimes, st.lastRefreshTime, 0, []⟩ a
      = ⟨setA st.scriptMtimes a.path a.mtime, a.now, 1, []⟩ := by
    unfold scriptStep
    rw [ha]
    simp [hta]
  have h2 : scriptStep ⟨setA st.scriptMtimes a.path a.mtime, a.now, 1, []⟩ b
      = ⟨setA (setA st.scriptMtimes a.path a.mtime) b.path b.mtime, a.now, 1, []⟩ := by
    unfold scriptStep
    rw [lookupA_setA_ne _ _ hab, hb]
    have hno : ¬ (b.now - a.now > 2) := by omega
    simp [hno]
  have hsc : fs.scriptFiles.foldl scriptStep ⟨st.scriptMtimes, st.lastRefreshTime, 0, []⟩
      = ⟨setA (setA st.scriptMtimes a.path a.mtime) b.path b.mtime, a.now, 1, []⟩ := by
    rw [hfs, List.foldl_cons, List.foldl_cons, List.foldl_nil, h1, h2]
  constructor <;> simp [check_for_changes, hauto, hsc]

/-- C5, witness: two fresh scripts found one second apart, three seconds
after the last refresh. -/
theorem C5_witness :
    (check_for_changes ⟨[], [], [], 7, true⟩
      ⟨[], [], [⟨"a.py", 1, 10⟩, ⟨"b.py", 1, 11⟩]⟩).refreshes = 1 ∧
    (check_for_changes ⟨[], [], [], 7, true⟩
      ⟨[], [], [⟨"a.py", 1, 10⟩, ⟨"b.py", 1, 11⟩]⟩).scriptRuns = [] :=
  C5_found_scripts_one_refresh ⟨[], [], [], 7, true⟩
    ⟨[], [], [⟨"a.py", 1, 10⟩, ⟨"b.py", 1, 11⟩]⟩ ⟨"a.py", 1, 10⟩ ⟨"b.py", 1, 11⟩
    rfl rfl (by decide) rfl rfl (by decide) (by decide)

/-- C9: the baseline scan performed by `_start_watching` records every
pre-existing input and output file, so a first poll cycle over the same
listing reports no data change, schedules no metadata regeneration, and
leaves both snapshots untouched. -/
theorem C9_baseline_then_quiet_cycle (st : WatchState) (fs : FS)
    (hIn : (fs.inputFiles.map Prod.fst).Nodup)
    (hOut : (fs.outputFiles.map Prod.fst).Nodup) :
    (check_for_changes (scan_data_folders st fs) fs).dataChanged = false ∧
    (check_for_changes (scan_data_folders st fs) fs).metadataRuns = 0 ∧
    (check_for_changes (scan_data_folders st fs) fs).lastInputScan
      = (scan_data_folders st fs).lastInputScan ∧
    (check_for_changes (scan_data_folders st fs) fs).lastOutputScan
      = (scan_data_folders st fs).lastOutputScan := by
  have hin : ∀ f ∈ fs.inputFiles,
      lookupA (scan_data_folders st fs).lastInputScan f.1 = some f.2 := by
    intro f hf
    simpa [scan_data_folders] using setAll_lookup_mem fs.inputFiles st.lastInputScan hIn f hf
  have hout : ∀ f ∈ fs.outputFiles,
      lookupA (scan_data_folders st fs).lastOutputScan f.1 = some f.2 := by
    intro f hf
    simpa [scan_data_folders] using setAll_lookup_mem fs.outputFiles st.lastOutputScan hOut f hf
  have hain : scanFolder ⟨(scan_data_folders st fs).lastInputScan, false⟩ fs.inputFiles
      = ⟨(scan_data_folders st fs).lastInputScan, false⟩ :=
    scanFolder_eq_of_match fs.inputFiles _ hin
  have haout : scanFolder ⟨(scan_data_folders st fs).lastOutputScan, false⟩ fs.outputFiles
      = ⟨(scan_data_folders st fs).lastOutputScan, false⟩ :=
    scanFolder_eq_of_match fs.outputFiles _ hout
  refine ⟨?_, ?_, ?_, ?_⟩ <;>
    simp [check_for_changes, hain, haout]

/-- C9, witness: one pre-existing file in each data folder. -/
theorem C9_witness :
    (check_for_changes (scan_data_folders ⟨[], [], [], 0, false⟩
      ⟨[("a.csv", 1)], [("b.csv", 2)], []⟩) ⟨[("a.csv", 1)], [("b.csv", 2)], []⟩).dataChanged
      = false ∧
    (check_for_changes (scan_data_folders ⟨[], [], [], 0, false⟩
      ⟨[("a.csv", 1)], [("b.csv", 2)], []⟩) ⟨[("a.csv", 1)], [("b.csv", 2)], []⟩).metadataRuns
      = 0 ∧
    (check_for_changes (scan_data_folders ⟨[], [], [], 0, false⟩
      ⟨[("a.csv", 1)], [("b.csv", 2)], []⟩) ⟨[("a.csv", 1)], [("b.csv", 2)], []⟩).lastInputScan
      = (scan_data_folders ⟨[], [], [], 0, false⟩
          ⟨[("a.csv", 1)], [("b.csv", 2)], []⟩).lastInputScan ∧
    (check_for_changes (scan_data_folders ⟨[], [], [], 0, false⟩
      ⟨[("a.csv", 1)], [("b.csv", 2)], []⟩) ⟨[("a.csv", 1)], [("b.csv", 2)], []⟩).lastOutputScan
      = (scan_data_folders ⟨[], [], [], 0, false⟩
          ⟨[("a.csv", 1)], [("b.csv", 2)], []⟩).lastOutputScan :=
  C9_baseline_then_quiet_cycle ⟨[], [], [], 0, false⟩ ⟨[("a.csv", 1)], [("b.csv", 2)], []⟩
    (by decide) (by decide)

/-- C10: the new-script debounce is leading-edge only.  A script discovered
within 2 seconds of the last list-refresh is added to the tracking map, yet
no list-refresh is scheduled in that cycle, no execution is scheduled, and
the debounce clock is left unchanged; and a later cycle observing that
script unmodified (at any time) schedules no refresh and no execution
either — no trailing refresh ever fires for the discovery. -/
theorem C10_leading_edge_debounce (st : WatchState) (fs fs2 : FS) (a : ScriptObs) (t2 : Nat)
    (hauto : st.autoRun = true)
    (hfs : fs.scriptFiles = [a])
    (ha : lookupA st.scriptMtimes a.path = none)
    (hta : a.now - st.lastRefreshTime ≤ 2)
    (hfs2 : fs2.scriptFiles = [⟨a.path, a.mtime, t2⟩]) :
    lookupA (check_for_changes st fs).scriptMtimes a.path = some a.mtime ∧
    (check_for_changes st fs).refreshes = 0 ∧
    (check_for_changes st fs).scriptRuns = [] ∧
    (check_for_changes st fs).lastRefreshTime = st.lastRefreshTime ∧
    (check_for_changes (afterCheck st fs) fs2).refreshes = 0 ∧
    (check_for_changes (afterCheck st fs) fs2).scriptRuns = [] := by
  have h1 : scriptStep ⟨st.scriptMtimes, st.lastRefreshTime, 0, []⟩ a
      = ⟨setA st.scriptMtimes a.path a.mtime, st.lastRefreshTime, 0, []⟩ := by
    unfold scriptStep
    rw [ha]
    have hno : ¬ (a.now - st.lastRefreshTime > 2) := by omega
    simp [hno]
  have hsc : fs.scriptFiles.foldl scriptStep ⟨st.scriptMtimes, st.lastRefreshTime, 0, []⟩
      = ⟨setA st.scriptMtimes a.path a.mtime, st.lastRefreshTime, 0, []⟩ := by
    rw [hfs, List.foldl_cons, List.foldl_nil, h1]
  have hmt : (check_for_changes st fs).scriptMtimes = setA st.scriptMtimes a.path a.mtime := by
    simp [check_for_changes, hauto, hsc]
  have hlr : (check_for_changes st fs).lastRefreshTime = st.lastRefreshTime := by
    simp [check_for_changes, hauto, hsc]
  have hst2mt : (afterCheck st fs).scriptMtimes = setA st.scriptMtimes a.path a.mtime := by
    simp [afterCheck, hmt]
  have hst2lr : (afterCheck st fs).lastRefreshTime = st.lastRefreshTime := by
    simp [afterCheck, hlr]
  have hst2auto : (afterCheck st fs).autoRun = true := by
    simp [afterCheck, hauto]
  have h2 : scriptStep ⟨setA st.scriptMtimes a.path a.mtime, st.lastRefreshTime, 0, []⟩
      ⟨a.path, a.mtime, t2⟩
      = ⟨setA st.scriptMtimes a.path a.mtime, st.lastRefreshTime, 0, []⟩ := by
    unfold scriptStep
    simp
  have hsc2 : fs2.scriptFiles.foldl scriptStep
      ⟨(afterCheck st fs).scriptMtimes, (afterCheck st fs).lastRefreshTime, 0, []⟩
      = ⟨setA st.scriptMtimes a.path a.mtime, st.lastRefreshTime, 0, []⟩ := by
    rw [hfs2, List.foldl_cons, List.foldl_nil, hst2mt, hst2lr, h2]
  refine ⟨?_, ?_, ?_, hlr, ?_, ?_⟩
  · rw [hmt]; exact lookupA_setA_self st.scriptMtimes a.path a.mtime
  · simp [check_for_changes, hauto, hsc]
  · simp [check_for_changes, hauto, hsc]
  · simp [check_for_changes, hst2auto, hsc2]
  · simp [check_for_changes, hst2auto, hsc2]

/-- C10, witness: a script found one second after the last refresh, then
seen unmodified much later. -/
theorem C10_witness :
    lookupA (check_for_changes ⟨[], [], [("old.py", 1)], 10, true⟩
      ⟨[], [], [⟨"new.py", 5, 11⟩]⟩).scriptMtimes "new.py" = some 5 ∧
    (check_for_changes ⟨[], [], [("old.py", 1)], 10, true⟩
      ⟨[], [], [⟨"new.py", 5, 11⟩]⟩).refreshes = 0 ∧
    (check_for_changes ⟨[], [], [("old.py", 1)], 10, true⟩
      ⟨[], [], [⟨"new.py", 5, 11⟩]⟩).scriptRuns = [] ∧
    (check_for_changes ⟨[], [], [("old.py", 1)], 10, true⟩
      ⟨[], [], [⟨"new.py", 5, 11⟩]⟩).lastRefreshTime = 10 ∧
    (check_for_changes (afterCheck ⟨[], [], [("old.py", 1)], 10, true⟩
      ⟨[], [], [⟨"new.py", 5, 11⟩]⟩) ⟨[], [], [⟨"new.py", 5, 100⟩]⟩).refreshes = 0 ∧
    (check_for_changes (afterCheck ⟨[], [], [("old.py", 1)], 10, true⟩
      ⟨[], [], [⟨"new.py", 5, 11⟩]⟩) ⟨[], [], [⟨"new.py", 5, 100⟩]⟩).scriptRuns = [] :=
  C10_leading_edge_debounce ⟨[], [], [("old.py", 1)], 10, true⟩
    ⟨[], [], [⟨"new.py", 5, 11⟩]⟩ ⟨[], [], [⟨"new.py", 5, 100⟩]⟩ ⟨"new.py", 5, 11⟩ 100
    rfl rfl (by decide) (by decide) rfl

end ScriptRunner
